import Mathlib

/-!
Verification of the Sparrow trip-planner backend (core serializers and
viewsets).

Shallow embedding of `src/sparrow/core/serializers.py` and
`src/sparrow/core/views.py` (Django REST Framework serializers and viewsets).

Modelling conventions:
* A DRF `data` dictionary entry whose key may be absent is modelled as
  `Option (Option α)`: the outer `Option` records presence of the key, the
  inner one records an explicit `null` value.  `data.get(k)` is `Option.join`.
* `serializers.ValidationError({field: msg})` is an `Except` error carrying the
  field key and the message.
* Database rows are Lean structures; primary keys are `Nat`; dates are `Nat`
  (an abstract day count); `date.today()` is an explicit `today` argument.
* Read-only serializer fields are dropped by an explicit `toInternalValue`
  step, mirroring DRF, so they can never reach `validated_data`.
-/

namespace Sparrow

/-- A field-scoped validation error: `serializers.ValidationError({field: message})`. -/
structure ValidationError where
  field : String
  message : String
deriving DecidableEq, Repr

/-! ## Route serializer (serializers.py, `RouteSerializer`) -/

/-- Raw input to a route write: every field of
`RouteSerializer.Meta.fields`.  `member` and `group` are nullable foreign
keys whose keys may also be absent from the payload, hence
`Option (Option Nat)`. -/
structure RouteInput where
  title : String
  description : String
  verified : Bool
  isPublic : Bool
  startingPointLat : Int
  startingPointLon : Int
  publicationDate : Nat
  member : Option (Option Nat)
  group : Option (Option Nat)
deriving DecidableEq, Repr

/-- The writable route fields: `extra_kwargs` marks `verified` and
`publicationDate` as `read_only`, so DRF drops them from the data passed to
`validate`/`create`/`update`.  This record has no `verified` or
`publicationDate` component at all. -/
structure RouteData where
  title : String
  description : String
  isPublic : Bool
  startingPointLat : Int
  startingPointLon : Int
  member : Option (Option Nat)
  group : Option (Option Nat)
deriving DecidableEq, Repr

/-- DRF `to_internal_value` for `RouteSerializer`: keeps the writable fields
and discards the two read-only ones. -/
def routeToInternalValue (inp : RouteInput) : RouteData :=
  { title := inp.title
    description := inp.description
    isPublic := inp.isPublic
    startingPointLat := inp.startingPointLat
    startingPointLon := inp.startingPointLon
    member := inp.member
    group := inp.group }

/-- Embeds `RouteSerializer.validate` (serializers.py lines 273-284): reads
`data.get` for the group and the member keys, rejects when both are non-null
or both are null/absent, and otherwise writes both keys back so that the
absent alternative is present with an explicit null. -/
def RouteSerializer.validate (data : RouteData) : Except String RouteData :=
  let group := data.group.join
  let member := data.member.join
  if (member.isSome && group.isSome) || (member.isNone && group.isNone) then
    Except.error "Only one of member and group can be specified"
  else
    Except.ok { data with group := some group, member := some member }

/-- A stored route row (the `Route` model columns that the serializer
touches). -/
structure RouteInstance where
  title : String
  description : String
  verified : Bool
  isPublic : Bool
  startingPointLat : Int
  startingPointLon : Int
  publicationDate : Nat
  member : Option Nat
  group : Option Nat
deriving DecidableEq, Repr

/-- Model-level defaults of the two read-only route columns.  They live in
`models.py`, which is outside the serializer code; the embedding keeps them
abstract. -/
structure RouteDefaults where
  verified : Bool
  publicationDate : Nat
deriving DecidableEq, Repr

/-- The `ModelSerializer.create` step for a route: every key of the validated data is
copied into the fresh row, every other column takes its model default. -/
def routeCreateApply (defaults : RouteDefaults) (d : RouteData) : RouteInstance :=
  { title := d.title
    description := d.description
    verified := defaults.verified
    isPublic := d.isPublic
    startingPointLat := d.startingPointLat
    startingPointLon := d.startingPointLon
    publicationDate := defaults.publicationDate
    member := d.member.join
    group := d.group.join }

/-- The `ModelSerializer.update` step for a route: every key of the validated data is
set on the existing row, every other column is left as it was. -/
def routeUpdateApply (inst : RouteInstance) (d : RouteData) : RouteInstance :=
  { inst with
    title := d.title
    description := d.description
    isPublic := d.isPublic
    startingPointLat := d.startingPointLat
    startingPointLon := d.startingPointLon
    member := d.member.join
    group := d.group.join }

/-- The full route create pipeline: drop read-only fields, run `validate`,
then build the row. -/
def routeCreate (defaults : RouteDefaults) (inp : RouteInput) :
    Except String RouteInstance :=
  match RouteSerializer.validate (routeToInternalValue inp) with
  | Except.error e => Except.error e
  | Except.ok d => Except.ok (routeCreateApply defaults d)

/-- The full route update pipeline: drop read-only fields, run `validate`,
then apply to the existing row. -/
def routeUpdate (inst : RouteInstance) (inp : RouteInput) :
    Except String RouteInstance :=
  match RouteSerializer.validate (routeToInternalValue inp) with
  | Except.error e => Except.error e
  | Except.ok d => Except.ok (routeUpdateApply inst d)

/-! ## RatingFlag serializer (serializers.py, `RatingFlagSerializer`) and
viewset (views.py, `RatingFlagViewSet`) -/

/-- Raw input to a rating/flag write: every field of
`RatingFlagSerializer.Meta.fields`.  `user` may be supplied by the client but
is listed in `read_only_fields`; `route` and `attraction` are nullable
foreign keys whose keys may be absent. -/
structure RatingFlagInput where
  user : Option Nat
  rating : Nat
  comment : Option String
  route : Option (Option Nat)
  attraction : Option (Option Nat)
deriving DecidableEq, Repr

/-- The writable rating/flag fields: `read_only_fields` lists `user`, so the
client-supplied `user` value is dropped before validation. -/
structure RatingFlagData where
  rating : Nat
  comment : Option String
  route : Option (Option Nat)
  attraction : Option (Option Nat)
deriving DecidableEq, Repr

/-- DRF `to_internal_value` for `RatingFlagSerializer`: keeps the writable
fields and discards the read-only `user`. -/
def ratingFlagToInternalValue (inp : RatingFlagInput) : RatingFlagData :=
  { rating := inp.rating
    comment := inp.comment
    route := inp.route
    attraction := inp.attraction }

/-- Embeds `RatingFlagSerializer.validate` (serializers.py lines 488-500): rejects
unless exactly one of `route`, `attraction` is non-null, then writes both
keys back explicitly. -/
def RatingFlagSerializer.validate (data : RatingFlagData) :
    Except String RatingFlagData :=
  let route := data.route.join
  let attraction := data.attraction.join
  if (route.isSome && attraction.isSome) || (route.isNone && attraction.isNone) then
    Except.error "Either route or attraction must be specified."
  else
    Except.ok { data with route := some route, attraction := some attraction }

/-- A stored rating/flag row. -/
structure RatingFlagInstance where
  id : Nat
  user : Nat
  rating : Nat
  comment : Option String
  route : Option Nat
  attraction : Option Nat
deriving DecidableEq, Repr

/-- Embeds `RatingFlagSerializer.save` (serializers.py lines 502-543) on a create:
after the asserts it merges the validated data with the keyword arguments,
overwrites the `user` key of the validated data with the member record of
the request user taken from the serializer context, and builds the row.
Here `requesterMember` is `Member.objects.get(baseUser=currentUser)`. -/
def RatingFlagSerializer.saveCreate (requesterMember : Nat) (newId : Nat)
    (d : RatingFlagData) : RatingFlagInstance :=
  { id := newId
    user := requesterMember
    rating := d.rating
    comment := d.comment
    route := d.route.join
    attraction := d.attraction.join }

/-- The full rating/flag create pipeline: drop the read-only `user`, run
`validate`, then `save` with the requester forced as author. -/
def ratingFlagCreate (requesterMember : Nat) (newId : Nat)
    (inp : RatingFlagInput) : Except String RatingFlagInstance :=
  match RatingFlagSerializer.validate (ratingFlagToInternalValue inp) with
  | Except.error e => Except.error e
  | Except.ok d => Except.ok (RatingFlagSerializer.saveCreate requesterMember newId d)

/-- Embeds `RatingFlagSerializer.save` on an update: same merge and author
overwrite, then `update` sets every validated key on the existing row. -/
def RatingFlagSerializer.saveUpdate (requesterMember : Nat)
    (inst : RatingFlagInstance) (d : RatingFlagData) : RatingFlagInstance :=
  { inst with
    user := requesterMember
    rating := d.rating
    comment := d.comment
    route := d.route.join
    attraction := d.attraction.join }

/-- The full rating/flag update pipeline through the serializer. -/
def ratingFlagUpdate (requesterMember : Nat) (inst : RatingFlagInstance)
    (inp : RatingFlagInput) : Except String RatingFlagInstance :=
  match RatingFlagSerializer.validate (ratingFlagToInternalValue inp) with
  | Except.error e => Except.error e
  | Except.ok d => Except.ok (RatingFlagSerializer.saveUpdate requesterMember inst d)

/-- A row as seen by `RatingFlagViewSet.get_queryset`: only the primary key
and the `rating_id` column matter for the filter. -/
structure RatingFlagRow where
  id : Nat
  rating_id : Nat
deriving DecidableEq, Repr

/-- Embeds `RatingFlagViewSet.get_queryset` (views.py lines 314-321): the full table
for `create`, otherwise `RatingFlag.objects.filter(rating_id__lte=5)`. -/
def RatingFlagViewSet.get_queryset (action : String)
    (db : List RatingFlagRow) : List RatingFlagRow :=
  if action = "create" then db
  else db.filter (fun r => r.rating_id ≤ 5)

/-- DRF `get_object`: look the primary key up inside the queryset of the
action; a miss raises 404. -/
def getObjectByPk (qs : List RatingFlagRow) (pk : Nat) : Option RatingFlagRow :=
  qs.find? (fun r => r.id = pk)

/-- The destroy action of `RatingFlagViewSet`: resolve the object through the
(non-create) queryset; 404 leaves the table untouched, a hit deletes the row
and answers 204. -/
def ratingFlagDestroyAction (db : List RatingFlagRow) (pk : Nat) :
    Nat × List RatingFlagRow :=
  match getObjectByPk (RatingFlagViewSet.get_queryset "destroy" db) pk with
  | none => (404, db)
  | some _ => (204, db.filter (fun r => ¬ r.id = pk))

/-- The update action of `RatingFlagViewSet`: resolve through the
(non-create) queryset; 404 leaves the table untouched, a hit overwrites the
`rating_id` of the row and answers 200. -/
def ratingFlagUpdateAction (db : List RatingFlagRow) (pk : Nat)
    (newRating : Nat) : Nat × List RatingFlagRow :=
  match getObjectByPk (RatingFlagViewSet.get_queryset "update" db) pk with
  | none => (404, db)
  | some _ =>
      (200, db.map (fun r => if r.id = pk then { r with rating_id := newRating } else r))

/-! ## Notebook serializer (serializers.py, `NotebookSerializer`) -/

/-- A row of the `Status` table; `status` is its display string (for
example "Completed" or "InProgress"). -/
structure Status where
  id : Nat
  status : String
deriving DecidableEq, Repr

/-- The writable notebook fields: `dateStarted` and `dateCompleted` are
read-only by `extra_kwargs`, so validated data carries only these.  The
`status` primary key has already been resolved to a `Status` row, as DRF does
for a `PrimaryKeyRelatedField`. -/
structure NotebookData where
  route : Nat
  title : String
  note : String
  status : Status
deriving DecidableEq, Repr

/-- A stored notebook row. -/
structure NotebookInstance where
  user : Nat
  route : Nat
  title : String
  note : String
  status : Status
  dateStarted : Nat
  dateCompleted : Option Nat
deriving DecidableEq, Repr

/-- Modelled from the spec: the `Notebook` model lives in
`src/sparrow/core/models.py`, which is not among the provided sources.  The
data-model table states that the completion date is set iff the status is
"Completed", and
`dateCompleted` is cleared to null when a notebook leaves that status, so a
completion date of a freshly created row defaults to null. -/
def notebookDateCompletedDefault : Option Nat := none

/-- Embeds `NotebookSerializer.create` (serializers.py lines 427-442): associates
the entry with the member record of the requester, stamps
`dateCompleted = date.today()` exactly when the initial status is
"Completed", and otherwise leaves the read-only date columns at their model
defaults (`dateStartedDefault` abstracts the `dateStarted` model default). -/
def NotebookSerializer.create (requesterMember : Nat) (today : Nat)
    (dateStartedDefault : Nat) (d : NotebookData) : NotebookInstance :=
  { user := requesterMember
    route := d.route
    title := d.title
    note := d.note
    status := d.status
    dateStarted := dateStartedDefault
    dateCompleted :=
      if d.status.status = "Completed" then some today
      else notebookDateCompletedDefault }

/-- Embeds `NotebookSerializer.update` (serializers.py lines 444-465): forces the
owner to the requester, then on a transition into "Completed" stamps
`dateCompleted = date.today()`; on a transition out of "Completed" resets
`dateStarted = date.today()` and clears `dateCompleted`; any other
transition touches neither date.  Every writable field of the validated data
is then set on the row. -/
def NotebookSerializer.update (requesterMember : Nat) (today : Nat)
    (inst : NotebookInstance) (d : NotebookData) : NotebookInstance :=
  let old_status := inst.status.status
  let base : NotebookInstance :=
    { inst with
      user := requesterMember
      route := d.route
      title := d.title
      note := d.note
      status := d.status }
  if d.status.status = "Completed" ∧ ¬ old_status = "Completed" then
    { base with dateCompleted := some today }
  else if ¬ d.status.status = "Completed" ∧ old_status = "Completed" then
    { base with dateStarted := today, dateCompleted := none }
  else
    base

/-- The notebook invariant of the data-model table of the spec: the completion
date is non-null exactly when the status is "Completed". -/
def notebookInvariant (n : NotebookInstance) : Prop :=
  n.dateCompleted.isSome ↔ n.status.status = "Completed"

instance (n : NotebookInstance) : Decidable (notebookInvariant n) := by
  unfold notebookInvariant
  infer_instance

/-! ## Registration (serializers.py, `RegisterUserSerializer`) -/

/-- Raw input to `RegisterUserSerializer`: the `Meta.fields` list.
`first_name`, `last_name` and `email` may be absent (the save method uses
`.pop` with an empty-string default, and `.get`). -/
structure RegisterInput where
  username : String
  password : String
  passwordCheck : String
  first_name : Option String
  last_name : Option String
  email : Option String
deriving DecidableEq, Repr

/-- A stored `User` row: `set_password` stores only the hash of the
submitted password. -/
structure StoredUser where
  username : String
  passwordHash : String
  first_name : String
  last_name : String
  email : String
deriving DecidableEq, Repr

/-- Embeds `RegisterUserSerializer.save` (serializers.py lines 44-66): rejects with
an error keyed "password" when the two password fields differ, then rejects
with an error keyed "email" when the email is absent or blank, and otherwise
creates the user with `set_password`, modelled as an abstract one-way hash
`hash`. -/
def RegisterUserSerializer.save (hash : String → String) (d : RegisterInput) :
    Except ValidationError StoredUser :=
  if ¬ d.password = d.passwordCheck then
    Except.error { field := "password", message := "Passwords must match!" }
  else if d.email = none ∨ d.email = some "" then
    Except.error { field := "email", message := "Email field is required." }
  else
    Except.ok
      { username := d.username
        first_name := d.first_name.getD ""
        last_name := d.last_name.getD ""
        email := d.email.getD ""
        passwordHash := hash d.password }

/-- The `Meta.fields` list of `RegisterUserSerializer`. -/
def registerUserFields : List String :=
  ["username", "password", "passwordCheck", "first_name", "last_name", "email"]

/-- The fields `extra_kwargs` marks `write_only` on `RegisterUserSerializer`
(the explicitly declared `passwordCheck` field is itself `write_only` as
well). -/
def registerUserWriteOnlyFields : List String := ["password", "passwordCheck"]

/-- The fields a serializer emits on output: its field list minus the
write-only ones. -/
def outputFields (fields writeOnly : List String) : List String :=
  fields.filter (fun f => ¬ writeOnly.contains f)

/-- The `UserSerializer.Meta.fields` list (serializers.py lines 12-15). -/
def userSerializerFields : List String :=
  ["id", "username", "first_name", "last_name", "email"]

/-- The `PrivateUserSerializer.Meta.fields` list (serializers.py lines 19-22). -/
def privateUserSerializerFields : List String :=
  ["id", "username", "first_name", "last_name"]

/-- The `SmallUserSerializer.Meta.fields` list (serializers.py lines 26-29). -/
def smallUserSerializerFields : List String := ["id", "username"]

/-- The field key a registration outcome is rejected on, if any. -/
def registrationErrorField (r : Except ValidationError StoredUser) : Option String :=
  match r with
  | Except.error e => some e.field
  | Except.ok _ => none

/-! ## Login (serializers.py `LoginSerializer`, views.py `LoginViewSet`) -/

/-- A credential store entry: a username together with the stored password
hash of that account. -/
structure Credential where
  username : String
  passwordHash : String
deriving DecidableEq, Repr

/-- The Django `authenticate` function (an external collaborator of this
code): the credential check of the store.  It yields the user exactly when the username
exists in the store and the hash of the submitted password matches the
stored one, and `none` otherwise — reporting nothing about which of the two
checks failed. -/
def authenticate (store : List Credential) (hash : String → String)
    (username password : String) : Option String :=
  match store.find? (fun c => c.username = username) with
  | none => none
  | some c => if hash password = c.passwordHash then some c.username else none

/-- Embeds `LoginSerializer.validate` (serializers.py lines 75-91): empty username
or password is rejected up front; then the credential check runs, any
failure yielding the one generic invalid-credentials error; on success the
user lands in the validated data. -/
def LoginSerializer.validate (store : List Credential) (hash : String → String)
    (username password : String) : Except ValidationError String :=
  if username = "" ∨ password = "" then
    Except.error
      { field := "authorization"
        message := "Both \"username\" and \"password\" are required!" }
  else
    match authenticate store hash username password with
    | none =>
        Except.error
          { field := "authorization", message := "Invalid username or password!" }
    | some user => Except.ok user

/-- The observable outcome of `LoginViewSet.post`: the HTTP status and the
session-bound identity attached by `login(self.request, user)`. -/
structure LoginResponse where
  status : Nat
  session : Option String
deriving DecidableEq, Repr

/-- Embeds `LoginViewSet.post` (views.py lines 173-182): validate the credentials
through the serializer (an error propagates as the 400-class validation
response), then log the validated user in and answer 202. -/
def LoginViewSet.post (store : List Credential) (hash : String → String)
    (username password : String) : Except ValidationError LoginResponse :=
  match LoginSerializer.validate store hash username password with
  | Except.error e => Except.error e
  | Except.ok user => Except.ok { status := 202, session := some user }

/-! ## Member shape selection (views.py, `MemberViewSet.get_serializer_class`) -/

/-- The serializer classes `MemberViewSet.get_serializer_class` can return. -/
inductive MemberSerializerClass where
  | memberSerializer
  | privateMemberSerializer
  | smallAndListMemberSerializer
  | registerMemberSerializer
deriving DecidableEq, Repr

/-- Embeds `MemberViewSet.get_serializer_class` (views.py lines 122-137): the list
action gets the small list serializer; retrieve compares the retrieved
member field `baseUser` with `request.user` (an anonymous requester is `none`
and never equals a real user) and gives the email-bearing serializer only to
the owner; create gets the registration serializer; everything else falls
through to `MemberSerializer`. -/
def MemberViewSet.get_serializer_class (action : String) (objectBaseUser : Nat)
    (requestUser : Option Nat) : MemberSerializerClass :=
  if action = "list" then
    MemberSerializerClass.smallAndListMemberSerializer
  else if action = "retrieve" then
    if requestUser = some objectBaseUser then
      MemberSerializerClass.memberSerializer
    else
      MemberSerializerClass.privateMemberSerializer
  else if action = "create" then
    MemberSerializerClass.registerMemberSerializer
  else
    MemberSerializerClass.memberSerializer

/-- The field list of the nested user sub-shape of each member serializer:
`MemberSerializer` nests `UserSerializer`, `PrivateMemberSerializer` nests
`PrivateUserSerializer`, `SmallAndListMemberSerializer` nests
`SmallUserSerializer`, and `RegisterMemberSerializer` nests
`RegisterUserSerializer` (serializers.py lines 122-211). -/
def nestedUserFields : MemberSerializerClass → List String
  | MemberSerializerClass.memberSerializer => userSerializerFields
  | MemberSerializerClass.privateMemberSerializer => privateUserSerializerFields
  | MemberSerializerClass.smallAndListMemberSerializer => smallUserSerializerFields
  | MemberSerializerClass.registerMemberSerializer => registerUserFields

/-! ## Helper lemmas -/

/-- Lemma: `RouteSerializer.validate` written as a single conditional. -/
lemma routeValidate_eq (d : RouteData) :
    RouteSerializer.validate d =
      if (d.member.join.isSome && d.group.join.isSome) ||
          (d.member.join.isNone && d.group.join.isNone) then
        Except.error "Only one of member and group can be specified"
      else
        Except.ok { d with member := some d.member.join, group := some d.group.join } :=
  rfl

/-- Lemma: `RatingFlagSerializer.validate` written as a single conditional. -/
lemma ratingFlagValidate_eq (d : RatingFlagData) :
    RatingFlagSerializer.validate d =
      if (d.route.join.isSome && d.attraction.join.isSome) ||
          (d.route.join.isNone && d.attraction.join.isNone) then
        Except.error "Either route or attraction must be specified."
      else
        Except.ok { d with route := some d.route.join, attraction := some d.attraction.join } :=
  rfl

/-! ## Claim theorems -/

/-- Claim C1: for every route create or update, the write is rejected with a
validation error when both of member and group are supplied non-null or both
are absent or null, and is accepted when exactly one is non-null, in which
case the absent alternative is present in the validated data with an
explicit null value rather than left unset. -/
theorem routeWrite_owner_exclusivity (defaults : RouteDefaults)
    (inst : RouteInstance) (inp : RouteInput) :
    (¬ (inp.member.join.isSome ↔ ¬ inp.group.join.isSome) →
      routeCreate defaults inp =
        Except.error "Only one of member and group can be specified" ∧
      routeUpdate inst inp =
        Except.error "Only one of member and group can be specified") ∧
    ((inp.member.join.isSome ↔ ¬ inp.group.join.isSome) →
      RouteSerializer.validate (routeToInternalValue inp) =
        Except.ok { routeToInternalValue inp with
                      member := some inp.member.join, group := some inp.group.join } ∧
      (∃ r, routeCreate defaults inp = Except.ok r ∧
        r.member = inp.member.join ∧ r.group = inp.group.join) ∧
      (∃ r, routeUpdate inst inp = Except.ok r ∧
        r.member = inp.member.join ∧ r.group = inp.group.join)) := by
  obtain ⟨t, ds, ver, pb, lat, lon, pd, m, g⟩ := inp
  rcases m with _ | (_ | m) <;> rcases g with _ | (_ | g) <;>
    simp [routeCreate, routeUpdate, RouteSerializer.validate, routeToInternalValue,
      routeCreateApply, routeUpdateApply, Option.join]

/-- Witness for C1: supplying both member and group is rejected; supplying
only a member is accepted with the group stored as null. -/
theorem routeWrite_owner_exclusivity_witness :
    routeCreate { verified := false, publicationDate := 0 }
        { title := "t", description := "d", verified := true, isPublic := true,
          startingPointLat := 0, startingPointLon := 0, publicationDate := 3,
          member := some (some 5), group := some (some 7) } =
      Except.error "Only one of member and group can be specified" ∧
    (∃ r, routeCreate { verified := false, publicationDate := 0 }
        { title := "t", description := "d", verified := true, isPublic := true,
          startingPointLat := 0, startingPointLon := 0, publicationDate := 3,
          member := some (some 5), group := none } =
      Except.ok r ∧ r.member = some 5 ∧ r.group = none) := by
  constructor
  · exact ((routeWrite_owner_exclusivity { verified := false, publicationDate := 0 }
      { title := "t", description := "d", verified := false, isPublic := false,
        startingPointLat := 0, startingPointLon := 0, publicationDate := 0,
        member := none, group := none }
      { title := "t", description := "d", verified := true, isPublic := true,
        startingPointLat := 0, startingPointLon := 0, publicationDate := 3,
        member := some (some 5), group := some (some 7) }).1 (by decide)).1
  · have h := ((routeWrite_owner_exclusivity { verified := false, publicationDate := 0 }
      { title := "t", description := "d", verified := false, isPublic := false,
        startingPointLat := 0, startingPointLon := 0, publicationDate := 0,
        member := none, group := none }
      { title := "t", description := "d", verified := true, isPublic := true,
        startingPointLat := 0, startingPointLon := 0, publicationDate := 3,
        member := some (some 5), group := none }).2 (by decide)).2.1
    simpa using h

/-- Claim C9: the `verified` and `publicationDate` route fields are
read-only: any values supplied for them are ignored, a create leaves them at
the model defaults and an update leaves the stored values unchanged, while
other fields such as the title do change. -/
theorem route_readonly_fields (defaults : RouteDefaults) (inst : RouteInstance)
    (inp : RouteInput) (v : Bool) (p : Nat) :
    routeCreate defaults { inp with verified := v, publicationDate := p } =
      routeCreate defaults inp ∧
    routeUpdate inst { inp with verified := v, publicationDate := p } =
      routeUpdate inst inp ∧
    (∀ r, routeCreate defaults inp = Except.ok r →
      r.verified = defaults.verified ∧ r.publicationDate = defaults.publicationDate ∧
      r.title = inp.title) ∧
    (∀ r, routeUpdate inst inp = Except.ok r →
      r.verified = inst.verified ∧ r.publicationDate = inst.publicationDate ∧
      r.title = inp.title) := by
  obtain ⟨t, ds, ver, pb, lat, lon, pd, m, g⟩ := inp
  refine ⟨rfl, rfl, ?_, ?_⟩ <;> intro r h <;>
    rcases m with _ | (_ | m) <;> rcases g with _ | (_ | g) <;>
      simp [routeCreate, routeUpdate, RouteSerializer.validate, routeToInternalValue,
        routeCreateApply, routeUpdateApply, Option.join] at h <;>
      simp [← h]

/-- Witness for C9: a concrete update that tries to set `verified` and
`publicationDate` changes the title but leaves both read-only columns as
they were. -/
theorem route_readonly_fields_witness :
    ∃ r, routeUpdate
        { title := "old", description := "d", verified := false, isPublic := true,
          startingPointLat := 1, startingPointLon := 2, publicationDate := 10,
          member := some 4, group := none }
        { title := "new", description := "d2", verified := true, isPublic := true,
          startingPointLat := 1, startingPointLon := 2, publicationDate := 99,
          member := some (some 4), group := none } = Except.ok r ∧
      r.verified = false ∧ r.publicationDate = 10 ∧ r.title = "new" := by
  have h := (route_readonly_fields { verified := false, publicationDate := 0 }
    { title := "old", description := "d", verified := false, isPublic := true,
      startingPointLat := 1, startingPointLon := 2, publicationDate := 10,
      member := some 4, group := none }
    { title := "new", description := "d2", verified := true, isPublic := true,
      startingPointLat := 1, startingPointLon := 2, publicationDate := 99,
      member := some (some 4), group := none } true 99).2.2.2
  exact ⟨_, rfl, h _ rfl⟩

/-- Claim C2: for every rating/flag create or update, the write is rejected
unless exactly one of route and attraction is non-null, with the absent one
normalized to an explicit null, and the stored user field always equals the
member record of the requester regardless of any user value supplied in the
input. -/
theorem ratingFlagWrite_exclusivity_and_author (requesterMember newId : Nat)
    (inst : RatingFlagInstance) (inp : RatingFlagInput) (u : Option Nat) :
    ratingFlagCreate requesterMember newId { inp with user := u } =
      ratingFlagCreate requesterMember newId inp ∧
    ratingFlagUpdate requesterMember inst { inp with user := u } =
      ratingFlagUpdate requesterMember inst inp ∧
    (¬ (inp.route.join.isSome ↔ ¬ inp.attraction.join.isSome) →
      ratingFlagCreate requesterMember newId inp =
        Except.error "Either route or attraction must be specified." ∧
      ratingFlagUpdate requesterMember inst inp =
        Except.error "Either route or attraction must be specified.") ∧
    ((inp.route.join.isSome ↔ ¬ inp.attraction.join.isSome) →
      RatingFlagSerializer.validate (ratingFlagToInternalValue inp) =
        Except.ok { ratingFlagToInternalValue inp with
                      route := some inp.route.join,
                      attraction := some inp.attraction.join } ∧
      (∃ r, ratingFlagCreate requesterMember newId inp = Except.ok r ∧
        r.route = inp.route.join ∧ r.attraction = inp.attraction.join ∧
        r.user = requesterMember) ∧
      (∃ r, ratingFlagUpdate requesterMember inst inp = Except.ok r ∧
        r.route = inp.route.join ∧ r.attraction = inp.attraction.join ∧
        r.user = requesterMember)) := by
  obtain ⟨us, rat, com, ro, att⟩ := inp
  refine ⟨rfl, rfl, ?_, ?_⟩ <;>
    rcases ro with _ | (_ | ro) <;> rcases att with _ | (_ | att) <;>
      simp [ratingFlagCreate, ratingFlagUpdate, RatingFlagSerializer.validate,
        ratingFlagToInternalValue, RatingFlagSerializer.saveCreate,
        RatingFlagSerializer.saveUpdate, Option.join]

/-- Witness for C2: with both targets null the write is rejected; with only
an attraction it is accepted, the route stored as null and the author forced
to the requester even though the input claimed user 99. -/
theorem ratingFlagWrite_exclusivity_and_author_witness :
    ratingFlagCreate 3 1
        { user := some 99, rating := 4, comment := none,
          route := some none, attraction := none } =
      Except.error "Either route or attraction must be specified." ∧
    (∃ r, ratingFlagCreate 3 1
        { user := some 99, rating := 4, comment := none,
          route := none, attraction := some (some 8) } =
      Except.ok r ∧ r.route = none ∧ r.attraction = some 8 ∧ r.user = 3) := by
  constructor
  · exact ((ratingFlagWrite_exclusivity_and_author 3 1
      { id := 0, user := 0, rating := 0, comment := none, route := none, attraction := none }
      { user := some 99, rating := 4, comment := none,
        route := some none, attraction := none } none).2.2.1 (by decide)).1
  · have h := ((ratingFlagWrite_exclusivity_and_author 3 1
      { id := 0, user := 0, rating := 0, comment := none, route := none, attraction := none }
      { user := some 99, rating := 4, comment := none,
        route := none, attraction := some (some 8) } none).2.2.2 (by decide)).2.1
    simpa [Option.join] using h

/-- Claim C10: every action of the rating/flag viewset other than create
works on the queryset restricted to rating_id at most 5, so an instance
whose rating_id exceeds 5 is not reachable: its update and destroy answer
404 and leave the table unchanged. -/
theorem ratingFlagViewSet_flags_immutable (db : List RatingFlagRow) (pk : Nat)
    (action : String) (newRating : Nat) (hact : ¬ action = "create")
    (hflag : ∀ r ∈ db, r.id = pk → 5 < r.rating_id) :
    (∀ r ∈ RatingFlagViewSet.get_queryset action db, r.rating_id ≤ 5) ∧
    getObjectByPk (RatingFlagViewSet.get_queryset action db) pk = none ∧
    ratingFlagDestroyAction db pk = (404, db) ∧
    ratingFlagUpdateAction db pk newRating = (404, db) := by
  have hq : ∀ a : String, ¬ a = "create" →
      RatingFlagViewSet.get_queryset a db = db.filter (fun r => r.rating_id ≤ 5) := by
    intro a ha
    simp [RatingFlagViewSet.get_queryset, ha]
  have hnone : getObjectByPk (db.filter (fun r => r.rating_id ≤ 5)) pk = none := by
    unfold getObjectByPk
    rw [List.find?_eq_none]
    intro r hr
    rw [List.mem_filter] at hr
    intro hid
    have h5 := hflag r hr.1 (by simpa using hid)
    have hle : r.rating_id ≤ 5 := by simpa using hr.2
    omega
  refine ⟨?_, ?_, ?_, ?_⟩
  · intro r hr
    rw [hq action hact, List.mem_filter] at hr
    simpa using hr.2
  · rw [hq action hact]
    exact hnone
  · unfold ratingFlagDestroyAction
    rw [hq "destroy" (by decide), hnone]
  · unfold ratingFlagUpdateAction
    rw [hq "update" (by decide), hnone]

/-- Witness for C10: in a table holding one flag (rating_id 7), the row is
invisible to the non-create queryset and both update and destroy answer 404
without touching the table. -/
theorem ratingFlagViewSet_flags_immutable_witness :
    getObjectByPk (RatingFlagViewSet.get_queryset "retrieve" [{ id := 1, rating_id := 7 }]) 1 = none ∧
    ratingFlagDestroyAction [{ id := 1, rating_id := 7 }] 1 = (404, [{ id := 1, rating_id := 7 }]) ∧
    ratingFlagUpdateAction [{ id := 1, rating_id := 7 }] 1 2 = (404, [{ id := 1, rating_id := 7 }]) :=
  (ratingFlagViewSet_flags_immutable [{ id := 1, rating_id := 7 }] 1 "retrieve" 2
    (by decide) (by decide)).2

/-- Claim C3: a notebook update entering "Completed" from a non-Completed
status sets the completion date to the current date; leaving "Completed"
clears the completion date and resets the start date to the current date;
any transition between two non-Completed statuses, and Completed to
Completed, leaves both dates unchanged. -/
theorem notebookUpdate_date_transitions (requesterMember today : Nat)
    (inst : NotebookInstance) (d : NotebookData) :
    (d.status.status = "Completed" → ¬ inst.status.status = "Completed" →
      (NotebookSerializer.update requesterMember today inst d).dateCompleted = some today ∧
      (NotebookSerializer.update requesterMember today inst d).dateStarted = inst.dateStarted) ∧
    (¬ d.status.status = "Completed" → inst.status.status = "Completed" →
      (NotebookSerializer.update requesterMember today inst d).dateCompleted = none ∧
      (NotebookSerializer.update requesterMember today inst d).dateStarted = today) ∧
    ((d.status.status = "Completed" ↔ inst.status.status = "Completed") →
      (NotebookSerializer.update requesterMember today inst d).dateCompleted = inst.dateCompleted ∧
      (NotebookSerializer.update requesterMember today inst d).dateStarted = inst.dateStarted) := by
  refine ⟨fun h1 h2 => ?_, fun h1 h2 => ?_, fun hiff => ?_⟩ <;>
    unfold NotebookSerializer.update
  · rw [if_pos ⟨h1, h2⟩]
    exact ⟨rfl, rfl⟩
  · rw [if_neg (by tauto), if_pos ⟨h1, h2⟩]
    exact ⟨rfl, rfl⟩
  · rw [if_neg (by tauto), if_neg (by tauto)]
    exact ⟨rfl, rfl⟩

/-- Witness for C3: on day 7, moving an entry started on day 2 from
"InProgress" to "Completed" stamps day 7; on day 9, moving it back clears
the completion date and restarts on day 9; renaming while staying
"InProgress" touches neither date. -/
theorem notebookUpdate_date_transitions_witness :
    (NotebookSerializer.update 1 7
        { user := 1, route := 4, title := "t", note := "n",
          status := { id := 2, status := "InProgress" }, dateStarted := 2,
          dateCompleted := none }
        { route := 4, title := "t", note := "n",
          status := { id := 3, status := "Completed" } }).dateCompleted = some 7 ∧
    ((NotebookSerializer.update 1 9
        { user := 1, route := 4, title := "t", note := "n",
          status := { id := 3, status := "Completed" }, dateStarted := 2,
          dateCompleted := some 7 }
        { route := 4, title := "t", note := "n",
          status := { id := 2, status := "InProgress" } }).dateCompleted = none ∧
      (NotebookSerializer.update 1 9
        { user := 1, route := 4, title := "t", note := "n",
          status := { id := 3, status := "Completed" }, dateStarted := 2,
          dateCompleted := some 7 }
        { route := 4, title := "t", note := "n",
          status := { id := 2, status := "InProgress" } }).dateStarted = 9) ∧
    (NotebookSerializer.update 1 9
        { user := 1, route := 4, title := "t", note := "n",
          status := { id := 2, status := "InProgress" }, dateStarted := 2,
          dateCompleted := none }
        { route := 4, title := "t2", note := "n2",
          status := { id := 5, status := "Planning" } }).dateCompleted = none ∧
    (NotebookSerializer.update 1 9
        { user := 1, route := 4, title := "t", note := "n",
          status := { id := 2, status := "InProgress" }, dateStarted := 2,
          dateCompleted := none }
        { route := 4, title := "t2", note := "n2",
          status := { id := 5, status := "Planning" } }).dateStarted = 2 := by
  refine ⟨?_, ⟨?_, ?_⟩, ?_, ?_⟩
  · exact ((notebookUpdate_date_transitions 1 7
      { user := 1, route := 4, title := "t", note := "n",
        status := { id := 2, status := "InProgress" }, dateStarted := 2,
        dateCompleted := none }
      { route := 4, title := "t", note := "n",
        status := { id := 3, status := "Completed" } }).1 (by decide) (by decide)).1
  · exact ((notebookUpdate_date_transitions 1 9
      { user := 1, route := 4, title := "t", note := "n",
        status := { id := 3, status := "Completed" }, dateStarted := 2,
        dateCompleted := some 7 }
      { route := 4, title := "t", note := "n",
        status := { id := 2, status := "InProgress" } }).2.1 (by decide) (by decide)).1
  · exact ((notebookUpdate_date_transitions 1 9
      { user := 1, route := 4, title := "t", note := "n",
        status := { id := 3, status := "Completed" }, dateStarted := 2,
        dateCompleted := some 7 }
      { route := 4, title := "t", note := "n",
        status := { id := 2, status := "InProgress" } }).2.1 (by decide) (by decide)).2
  · exact ((notebookUpdate_date_transitions 1 9
      { user := 1, route := 4, title := "t", note := "n",
        status := { id := 2, status := "InProgress" }, dateStarted := 2,
        dateCompleted := none }
      { route := 4, title := "t2", note := "n2",
        status := { id := 5, status := "Planning" } }).2.2 (by decide)).1
  · exact ((notebookUpdate_date_transitions 1 9
      { user := 1, route := 4, title := "t", note := "n",
        status := { id := 2, status := "InProgress" }, dateStarted := 2,
        dateCompleted := none }
      { route := 4, title := "t2", note := "n2",
        status := { id := 5, status := "Planning" } }).2.2 (by decide)).2

/-- Claim C4: the invariant "completion date is non-null iff the status is
Completed" holds after any notebook create or update: a create associates
the entry with the member record of the requester and stamps the completion date
exactly when the initial status is "Completed", and an update preserves the
invariant across every status transition. -/
theorem notebook_completion_invariant (requesterMember today dateStartedDefault : Nat)
    (inst : NotebookInstance) (d : NotebookData) :
    (NotebookSerializer.create requesterMember today dateStartedDefault d).user =
      requesterMember ∧
    notebookInvariant (NotebookSerializer.create requesterMember today dateStartedDefault d) ∧
    (d.status.status = "Completed" →
      (NotebookSerializer.create requesterMember today dateStartedDefault d).dateCompleted =
        some today) ∧
    (notebookInvariant inst →
      notebookInvariant (NotebookSerializer.update requesterMember today inst d)) := by
  refine ⟨rfl, ?_, fun h => ?_, fun hinv => ?_⟩
  · unfold notebookInvariant NotebookSerializer.create notebookDateCompletedDefault
    by_cases h : d.status.status = "Completed" <;> simp [h]
  · simp [NotebookSerializer.create, h]
  · unfold notebookInvariant NotebookSerializer.update
    unfold notebookInvariant at hinv
    by_cases hd : d.status.status = "Completed" <;>
      by_cases hi : inst.status.status = "Completed" <;>
        simp [hd, hi] at hinv ⊢
    · simpa [hi] using hinv
    · simpa [hi] using hinv

/-- Witness for C4: creating an entry with status "Planning" satisfies the
invariant with a null completion date, and an update of a Completed entry
(satisfying the invariant) back to "Planning" preserves it. -/
theorem notebook_completion_invariant_witness :
    notebookInvariant (NotebookSerializer.create 2 7 7
      { route := 1, title := "t", note := "n",
        status := { id := 5, status := "Planning" } }) ∧
    notebookInvariant (NotebookSerializer.update 2 9
      { user := 2, route := 1, title := "t", note := "n",
        status := { id := 3, status := "Completed" }, dateStarted := 2,
        dateCompleted := some 7 }
      { route := 1, title := "t", note := "n",
        status := { id := 5, status := "Planning" } }) := by
  constructor
  · exact (notebook_completion_invariant 2 7 7
      { user := 0, route := 0, title := "", note := "",
        status := { id := 0, status := "" }, dateStarted := 0, dateCompleted := none }
      { route := 1, title := "t", note := "n",
        status := { id := 5, status := "Planning" } }).2.1
  · exact (notebook_completion_invariant 2 9 0
      { user := 2, route := 1, title := "t", note := "n",
        status := { id := 3, status := "Completed" }, dateStarted := 2,
        dateCompleted := some 7 }
      { route := 1, title := "t", note := "n",
        status := { id := 5, status := "Planning" } }).2.2.2 (by decide)

/-- Counterexample for C5: when the passwords differ AND the email is
absent, the registration is rejected with the error keyed "password" — the
password check runs first — so the clause of the claim that an absent email is
rejected with an error keyed "email" does not hold as stated. -/
theorem register_email_key_counterexample :
    ({ username := "u", password := "p1", passwordCheck := "p2",
        first_name := none, last_name := none,
        email := none } : RegisterInput).email = none ∧
    registrationErrorField (RegisterUserSerializer.save id
      { username := "u", password := "p1", passwordCheck := "p2",
        first_name := none, last_name := none, email := none }) = some "password" ∧
    ¬ registrationErrorField (RegisterUserSerializer.save id
      { username := "u", password := "p1", passwordCheck := "p2",
        first_name := none, last_name := none, email := none }) = some "email" := by
  refine ⟨rfl, ?_, ?_⟩ <;> decide

/-- Claim C5 as amended: a registration with differing password and
passwordCheck is rejected with a validation error keyed "password" and no
user is created; a registration whose passwords match but whose email is
absent or blank is rejected with a validation error keyed "email" and no
user is created (the password check runs first, so a request failing both
checks reports the "password" error). -/
theorem register_rejects_mismatch_and_blank_email (hash : String → String)
    (d : RegisterInput) :
    (¬ d.password = d.passwordCheck →
      RegisterUserSerializer.save hash d =
        Except.error { field := "password", message := "Passwords must match!" }) ∧
    (d.password = d.passwordCheck → d.email = none ∨ d.email = some "" →
      RegisterUserSerializer.save hash d =
        Except.error { field := "email", message := "Email field is required." }) := by
  constructor
  · intro h
    unfold RegisterUserSerializer.save
    rw [if_pos h]
  · intro hp he
    unfold RegisterUserSerializer.save
    rw [if_neg (by simpa using hp), if_pos he]

/-- Witness for C5 (amended): the spec scenario password "p1" versus
passwordCheck "p2" is rejected on "password"; matching passwords with a
blank email are rejected on "email". -/
theorem register_rejects_witness :
    RegisterUserSerializer.save id
      { username := "u", password := "p1", passwordCheck := "p2",
        first_name := none, last_name := none, email := some "a@b.c" } =
      Except.error { field := "password", message := "Passwords must match!" } ∧
    RegisterUserSerializer.save id
      { username := "u", password := "p1", passwordCheck := "p1",
        first_name := none, last_name := none, email := some "" } =
      Except.error { field := "email", message := "Email field is required." } := by
  constructor
  · exact (register_rejects_mismatch_and_blank_email id
      { username := "u", password := "p1", passwordCheck := "p2",
        first_name := none, last_name := none, email := some "a@b.c" }).1 (by decide)
  · exact (register_rejects_mismatch_and_blank_email id
      { username := "u", password := "p1", passwordCheck := "p1",
        first_name := none, last_name := none, email := some "" }).2 rfl (Or.inr rfl)

/-- Claim C6: a successful registration stores only the one-way hash of the
submitted password, and neither "password" nor "passwordCheck" is among the
output fields of the registration serializer or the field lists of any
user-reading serializer. -/
theorem register_password_never_output (hash : String → String)
    (d : RegisterInput) :
    (∀ u, RegisterUserSerializer.save hash d = Except.ok u →
      u.passwordHash = hash d.password) ∧
    ¬ "password" ∈ outputFields registerUserFields registerUserWriteOnlyFields ∧
    ¬ "passwordCheck" ∈ outputFields registerUserFields registerUserWriteOnlyFields ∧
    ¬ "password" ∈ userSerializerFields ∧
    ¬ "passwordCheck" ∈ userSerializerFields ∧
    ¬ "password" ∈ privateUserSerializerFields ∧
    ¬ "passwordCheck" ∈ privateUserSerializerFields ∧
    ¬ "password" ∈ smallUserSerializerFields ∧
    ¬ "passwordCheck" ∈ smallUserSerializerFields := by
  refine ⟨?_, by decide, by decide, by decide, by decide, by decide, by decide,
    by decide, by decide⟩
  intro u h
  unfold RegisterUserSerializer.save at h
  split at h
  · cases h
  · split at h
    · cases h
    · cases h
      rfl

/-- Witness for C6: a concrete successful registration stores exactly the
hash of "secret" as the password column. -/
theorem register_password_never_output_witness :
    RegisterUserSerializer.save (fun s => "h" ++ s)
      { username := "u", password := "secret", passwordCheck := "secret",
        first_name := none, last_name := none, email := some "a@b.c" } =
      Except.ok { username := "u", passwordHash := "hsecret",
                  first_name := "", last_name := "", email := "a@b.c" } ∧
    ({ username := "u", passwordHash := "hsecret", first_name := "",
        last_name := "", email := "a@b.c" } : StoredUser).passwordHash = "hsecret" := by
  refine ⟨rfl, ?_⟩
  exact (register_password_never_output (fun s => "h" ++ s)
    { username := "u", password := "secret", passwordCheck := "secret",
      first_name := none, last_name := none, email := some "a@b.c" }).1 _ rfl

/-- Claim C7: any two login attempts that reach and fail the credential
check — whatever the reason, a non-existent username or a wrong password —
produce the same generic invalid-credentials validation error, and a
successful check logs the user in with a 202 response carrying the
session-bound identity. -/
theorem login_failure_indistinguishable (store : List Credential)
    (hash : String → String) (u₁ p₁ u₂ p₂ : String)
    (hu₁ : ¬ u₁ = "") (hp₁ : ¬ p₁ = "") (hu₂ : ¬ u₂ = "") (hp₂ : ¬ p₂ = "")
    (hf₁ : authenticate store hash u₁ p₁ = none)
    (hf₂ : authenticate store hash u₂ p₂ = none) :
    LoginViewSet.post store hash u₁ p₁ = LoginViewSet.post store hash u₂ p₂ ∧
    LoginViewSet.post store hash u₁ p₁ =
      Except.error { field := "authorization",
                     message := "Invalid username or password!" } ∧
    (∀ u p user, ¬ u = "" → ¬ p = "" → authenticate store hash u p = some user →
      LoginViewSet.post store hash u p =
        Except.ok { status := 202, session := some user }) := by
  have hfail : ∀ u p : String, ¬ u = "" → ¬ p = "" →
      authenticate store hash u p = none →
      LoginViewSet.post store hash u p =
        Except.error { field := "authorization",
                       message := "Invalid username or password!" } := by
    intro u p hu hp hf
    unfold LoginViewSet.post LoginSerializer.validate
    rw [if_neg (by tauto), hf]
  refine ⟨?_, hfail u₁ p₁ hu₁ hp₁ hf₁, ?_⟩
  · rw [hfail u₁ p₁ hu₁ hp₁ hf₁, hfail u₂ p₂ hu₂ hp₂ hf₂]
  · intro u p user hu hp hs
    unfold LoginViewSet.post LoginSerializer.validate
    rw [if_neg (by tauto), hs]

/-- Witness for C7: against a store holding only the account "alice", the
attempt with the unknown username "bob" and the attempt with the username alice
but the wrong password yield the identical generic error, while the correct
credentials yield 202 with the session identity. -/
theorem login_failure_indistinguishable_witness :
    LoginViewSet.post [{ username := "alice", passwordHash := "hsecret" }]
        (fun s => "h" ++ s) "bob" "secret" =
      LoginViewSet.post [{ username := "alice", passwordHash := "hsecret" }]
        (fun s => "h" ++ s) "alice" "wrong" ∧
    LoginViewSet.post [{ username := "alice", passwordHash := "hsecret" }]
        (fun s => "h" ++ s) "bob" "secret" =
      Except.error { field := "authorization",
                     message := "Invalid username or password!" } ∧
    LoginViewSet.post [{ username := "alice", passwordHash := "hsecret" }]
        (fun s => "h" ++ s) "alice" "secret" =
      Except.ok { status := 202, session := some "alice" } := by
  have h := login_failure_indistinguishable
    [{ username := "alice", passwordHash := "hsecret" }] (fun s => "h" ++ s)
    "bob" "secret" "alice" "wrong"
    (by decide) (by decide) (by decide) (by decide) rfl rfl
  exact ⟨h.1, h.2.1, h.2.2 "alice" "secret" "alice" (by decide) (by decide) rfl⟩

/-- Claim C8: the member shape selector gives the email-bearing field set
only to the owner of the retrieved profile, the email-free field set to any
other requester on retrieve, and the two-field user sub-shape inside the
list action. -/
theorem member_shape_selector (objectBaseUser : Nat) (requestUser : Option Nat) :
    (MemberViewSet.get_serializer_class "retrieve" objectBaseUser requestUser =
        MemberSerializerClass.memberSerializer ↔ requestUser = some objectBaseUser) ∧
    nestedUserFields (MemberViewSet.get_serializer_class "retrieve" objectBaseUser requestUser) =
      (if requestUser = some objectBaseUser then
        ["id", "username", "first_name", "last_name", "email"]
      else
        ["id", "username", "first_name", "last_name"]) ∧
    MemberViewSet.get_serializer_class "list" objectBaseUser requestUser =
      MemberSerializerClass.smallAndListMemberSerializer ∧
    nestedUserFields (MemberViewSet.get_serializer_class "list" objectBaseUser requestUser) =
      ["id", "username"] := by
  by_cases h : requestUser = some objectBaseUser <;>
    simp [MemberViewSet.get_serializer_class, nestedUserFields, h,
      userSerializerFields, privateUserSerializerFields, smallUserSerializerFields]

end Sparrow
